import Mathlib

/-!
Verification development for the voicechat browser front end.

The repository consists of several near-duplicate page variants that wire a
voice-session SDK to an email-capture modal.  Each variant is embedded below as
an explicit state-transition model:

* `AppMain`  — src/src/App.tsx (capture_Email tool, handleEmailSubmit,
  handleEmailCancel, onDisconnect, handleEndSession, the 15s capture timeout);
* `Var0`     — src/unnamed/part_000 (get_email tool whose stored resolver
  wrapper resolves the raw email string on success and calls an unbound
  reject on failure, the auto-email popup wiring);
* `Var1`     — src/unnamed/part_001 (capture_Email tool that stashes the
  resolve function on the window object, with no timeout);
* `Hook`     — src/unnamed/part_005 useVoiceAssistant (60s capture timeout
  that resolves without closing the modal) together with the part_003 modal
  event listener;
* `PopupA` / `PopupB` — the two copies of src/src/components/EmailPopup.tsx
  (fetch-based webhook variant, and the isAgentTool / image-side-channel
  variant);
* `Sess`     — the retry loop of handleStartSession.

Pending promises are modelled by numeric ids; invoking a stored resolve
function is modelled by appending the (id, result) pair to a resolution log.
Callbacks are modelled as functions acting on the current component state,
except where the source memoizes a closure over stale values: the App.tsx
onDisconnect handler has an empty useCallback dependency array, so its
closure is pinned to the initial null resolver, and the App.tsx retry path
reschedules the same handleStartSession closure, so the retry-cap check
re-reads the frozen connectionAttempts of the render that created it.
Those two callbacks are modelled with the frozen values they actually see.
-/

/-- Models the JavaScript regular-expression class backslash-s for the
characters that can occur here (space, tab, newline, carriage return,
vertical tab, form feed, no-break space, BOM). -/
def isJsSpace (c : Char) : Bool :=
  c = ' ' || c = '\t' || c = '\n' || c = '\r' ||
  c = '\x0b' || c = '\x0c' || c = ' ' || c = '﻿'

/-- Models JavaScript String.prototype.trim. -/
def jsTrim (s : String) : String :=
  ⟨((s.toList.dropWhile isJsSpace).reverse.dropWhile isJsSpace).reverse⟩

/-- True when the list contains a period that is not its last element.
Used on the tail of the domain part: together with a nonempty head this
finds a decomposition domain = B ++ period ++ C with B and C nonempty. -/
def dotBeforeEnd : List Char → Bool
  | [] => false
  | [_] => false
  | c :: rest => (c = '.') || dotBeforeEnd rest

/-- Models emailRegex.test for the source pattern
caret [^backslash-s@]+ at-sign [^backslash-s@]+ backslash-period [^backslash-s@]+ dollar:
the whole string splits as local at-sign domain, where local is nonempty,
there is exactly one at-sign, no whitespace occurs anywhere, and the domain
contains a period with nonempty text on both sides. -/
def emailRegexTest (s : String) : Bool :=
  let cs := s.toList
  let loc := cs.takeWhile (fun c => c ≠ '@')
  match cs.dropWhile (fun c => c ≠ '@') with
  | [] => false
  | _ :: dom =>
      !loc.isEmpty && dom.all (fun c => c ≠ '@') &&
      cs.all (fun c => !(isJsSpace c)) &&
      (match dom with
       | [] => false
       | _ :: t => dotBeforeEnd t)

/-- The EmailCaptureResult interface shared by all variants. -/
structure EmailCaptureResult where
  email : Option String
  success : Bool
  message : String
deriving DecidableEq, Repr

/-- First resolution recorded for a given promise id (a JavaScript promise
keeps the first value it is resolved with; later resolve calls are no-ops). -/
def settledResult (pid : Nat) (calls : List (Nat × EmailCaptureResult)) :
    Option EmailCaptureResult :=
  (calls.find? (fun p => p.1 == pid)).map Prod.snd

/-- Number of resolve calls recorded for a given promise id. -/
def resolveCallCount (pid : Nat) (calls : List (Nat × EmailCaptureResult)) : Nat :=
  (calls.filter (fun p => p.1 == pid)).length

namespace AppMain

/-- State of the src/src/App.tsx component.  `resolver` holds the promise id
whose resolve function is stored in the emailCaptureResolver state,
`timers` the promise ids with a pending 15s capture timeout, `cleanup` the
promise id whose cleanup closure is stashed on the window object,
`resolutions` the log of resolve calls, and `thrown` the log of exceptions
raised by the component code (none of its paths throws). -/
structure AppState where
  showEmailModal : Bool
  emailInput : String
  emailPrompt : String
  isSubmittingEmail : Bool
  connectionAttempts : Nat
  isSecureConnection : Bool
  resolver : Option Nat
  timers : List Nat
  cleanup : Option Nat
  resolutions : List (Nat × EmailCaptureResult)
  thrown : List String
  nextId : Nat
deriving DecidableEq, Repr

def appInit : AppState :=
  { showEmailModal := false, emailInput := "", emailPrompt := "",
    isSubmittingEmail := false, connectionAttempts := 0,
    isSecureConnection := false, resolver := none, timers := [],
    cleanup := none, resolutions := [], thrown := [], nextId := 0 }

def timeoutResult : EmailCaptureResult :=
  ⟨none, false, "Booking timeout - please restart booking process."⟩

def cancelledResult : EmailCaptureResult :=
  ⟨none, false, "Booking cancelled by user."⟩

/-- The result object built by the cleanup branch of onDisconnect; that
branch is unreachable in App.tsx because the handler closure is pinned to
the initial null resolver (see onDisconnect below). -/
def connectionLostResult : EmailCaptureResult :=
  ⟨none, false, "Connection lost during booking - please reconnect."⟩

def bookingSuccess (email : String) : EmailCaptureResult :=
  ⟨some email, true, "Booking email " ++ email ++ " captured - proceeding with booking!"⟩

/-- The capture_Email client tool: installs a fresh resolver, resets the
input, opens the modal, schedules the 15s timeout and stashes the cleanup
closure on the window object (overwriting any previous one).  Returns the
id of the new promise. -/
def capture_Email (s : AppState) : AppState × Nat :=
  let pid := s.nextId
  ({ s with emailPrompt := "Enter your email to complete booking:",
            resolver := some pid,
            emailInput := "", isSubmittingEmail := false,
            showEmailModal := true,
            timers := s.timers ++ [pid],
            cleanup := some pid,
            nextId := pid + 1 }, pid)

/-- window.emailCaptureCleanup: clears the stored timeout, clears the
resolver, closes the modal; the call sites delete the stash afterwards. -/
def runCleanup (s : AppState) : AppState :=
  match s.cleanup with
  | some pid =>
      { s with timers := s.timers.erase pid, resolver := none,
               showEmailModal := false, isSubmittingEmail := false,
               cleanup := none }
  | none => s

/-- The 15s capture timeout firing for promise `pid` (only has an effect
while that timer is still scheduled): clears the resolver, closes the
modal, and resolves the promise with the timeout result. -/
def timeoutFire (pid : Nat) (s : AppState) : AppState :=
  if pid ∈ s.timers then
    { s with timers := s.timers.erase pid, resolver := none,
             showEmailModal := false, isSubmittingEmail := false,
             resolutions := s.resolutions ++ [(pid, timeoutResult)] }
  else s

/-- handleEmailSubmit: bail out while already submitting, trim the input,
bail out when empty; the emailRegex result is computed but never used by
the source, so a pending resolver is resolved with success regardless of
validity; then the cleanup closure is run and deleted and the modal closed. -/
def handleEmailSubmit (s : AppState) : AppState :=
  if s.isSubmittingEmail then s
  else
    let email := jsTrim s.emailInput
    if email = "" then s
    else
      let _isValidEmail := emailRegexTest email
      let s2 :=
        match s.resolver with
        | some pid =>
            runCleanup { s with
              resolutions := s.resolutions ++ [(pid, bookingSuccess email)],
              resolver := none }
        | none => s
      { s2 with showEmailModal := false, emailInput := "",
                isSubmittingEmail := false }

/-- handleEmailCancel: resolve a pending capture with the cancelled result,
run and delete the cleanup closure, close the modal. -/
def handleEmailCancel (s : AppState) : AppState :=
  let s2 :=
    match s.resolver with
    | some pid =>
        runCleanup { s with
          resolutions := s.resolutions ++ [(pid, cancelledResult)],
          resolver := none }
    | none => s
  { s2 with showEmailModal := false, emailInput := "",
            isSubmittingEmail := false }

/-- onDisconnect: the source registers this handler through useCallback
with an empty dependency array, so the closure that runs at disconnect
time keeps the emailCaptureResolver binding of the first render, which is
null.  The cleanup branch that would resolve a pending capture with the
connection-lost result is therefore dead code: the handler only drops the
secure-connection flag, and a pending future, its resolver, its modal and
its timer are all left in place. -/
def onDisconnect (s : AppState) : AppState :=
  { s with isSecureConnection := false }

/-- onConnect: set the secure flag and reset the retry counter. -/
def onConnect (s : AppState) : AppState :=
  { s with isSecureConnection := true, connectionAttempts := 0 }

/-- onError: drop the secure flag and, when under the retry cap, increment
the retry counter (scheduled 2s later in the source). -/
def onError (s : AppState) : AppState :=
  let s1 := { s with isSecureConnection := false }
  if s1.connectionAttempts < 3 then
    { s1 with connectionAttempts := s1.connectionAttempts + 1 }
  else s1

/-- handleEndSession: the try branch awaits the vendor endSession and the
catch branch only logs, so whether or not endSession throws, the finally
block resets the secure flag and the retry counter. -/
def handleEndSession (_endSessionThrew : Bool) (s : AppState) : AppState :=
  { s with isSecureConnection := false, connectionAttempts := 0 }

/-- User/timer events applied to one open capture request (promise id 0):
typing a value and submitting, cancelling, or the timeout firing. -/
inductive CapEvent where
  | submit (raw : String)
  | cancel
  | timeout
deriving DecidableEq, Repr

def capStep : CapEvent → AppState → AppState
  | .submit raw, s => handleEmailSubmit { s with emailInput := raw }
  | .cancel, s => handleEmailCancel s
  | .timeout, s => timeoutFire 0 s

def runCap : List CapEvent → AppState → AppState
  | [], s => s
  | e :: l, s => runCap l (capStep e s)

end AppMain

namespace Var0

/-- The ReferenceError raised when the part_000 code calls reject: the
Promise executor only binds resolve, so the identifier is unbound. -/
def refErr : String := "ReferenceError: reject is not defined"

/-- State of the src/unnamed/part_000 component.  The agent-tool promise of
get_email settles only with a raw email string, recorded in `settled`;
`thrown` logs the ReferenceErrors raised by the unbound reject calls;
`autoWebhook` logs the image-side-channel webhook deliveries of the auto
popup. -/
structure V0State where
  showEmailModal : Bool
  showAutoEmailModal : Bool
  emailPrompt : String
  isSecureConnection : Bool
  connectionAttempts : Nat
  callStartTime : Option Nat
  resolver : Option Nat
  timers : List Nat
  cleanup : Option Nat
  settled : List (Nat × String)
  thrown : List String
  autoWebhook : List String
  nextId : Nat
deriving DecidableEq, Repr

def v0Init : V0State :=
  { showEmailModal := false, showAutoEmailModal := false, emailPrompt := "",
    isSecureConnection := false, connectionAttempts := 0, callStartTime := none,
    resolver := none, timers := [], cleanup := none, settled := [],
    thrown := [], autoWebhook := [], nextId := 0 }

/-- The resolver wrapper stored by get_email: when the result is a success
with a truthy (nonempty) email it resolves the promise with the raw email
string; otherwise it calls reject, which is unbound, so a ReferenceError is
raised and the promise stays unsettled.  Returns the new state and whether
the call completed normally. -/
def invokeStoredResolver (pid : Nat) (r : EmailCaptureResult) (s : V0State) :
    V0State × Bool :=
  match r.email, r.success with
  | some e, true =>
      if e = "" then ({ s with thrown := s.thrown ++ [refErr] }, false)
      else ({ s with settled := s.settled ++ [(pid, e)] }, true)
  | _, _ => ({ s with thrown := s.thrown ++ [refErr] }, false)

/-- The get_email client tool: sets the agent prompt, stores the wrapper
resolver, opens the modal, schedules the 1s timeout and stashes the cleanup
closure.  Returns the new promise id. -/
def get_email (s : V0State) : V0State × Nat :=
  let pid := s.nextId
  ({ s with emailPrompt := "AI Agent begär din e-post:",
            resolver := some pid,
            showEmailModal := true,
            timers := s.timers ++ [pid],
            cleanup := some pid,
            nextId := pid + 1 }, pid)

/-- window.emailCaptureCleanup of part_000: clear the timeout, clear the
resolver, close the modal. -/
def runCleanupV0 (s : V0State) : V0State :=
  match s.cleanup with
  | some pid =>
      { s with timers := s.timers.erase pid, resolver := none,
               showEmailModal := false, cleanup := none }
  | none => s

/-- The 1s get_email timeout: the source first clears the resolver and
closes the modal, then calls reject, which is unbound, so a ReferenceError
is raised and the promise is left unsettled. -/
def timeoutFire (pid : Nat) (s : V0State) : V0State :=
  if pid ∈ s.timers then
    let s1 := { s with timers := s.timers.erase pid, resolver := none,
                       showEmailModal := false }
    { s1 with thrown := s1.thrown ++ [refErr] }
  else s

/-- handleEmailSubmit of part_000 (called by the popup with the validated
trimmed email): invoke the stored wrapper with a success result; if that
completes normally, clear the resolver, run and delete the cleanup closure
and close the modal; if it throws, the rest of the handler is skipped. -/
def handleEmailSubmit (email : String) (s : V0State) : V0State :=
  match s.resolver with
  | some pid =>
      let r : EmailCaptureResult :=
        ⟨some email, true, "Email captured successfully for agent."⟩
      let (s2, completed) := invokeStoredResolver pid r s
      if completed then
        { runCleanupV0 { s2 with resolver := none } with showEmailModal := false }
      else s2
  | none => { s with showEmailModal := false }

/-- handleEmailClose of part_000: invoke the stored wrapper with a
cancelled result; the wrapper hits the unbound reject, so the trailing
cleanup statements are skipped when a resolver was pending. -/
def handleEmailClose (s : V0State) : V0State :=
  match s.resolver with
  | some pid =>
      let r : EmailCaptureResult :=
        ⟨none, false, "Email capture cancelled by user."⟩
      let (s2, completed) := invokeStoredResolver pid r s
      if completed then
        { runCleanupV0 { s2 with resolver := none } with showEmailModal := false }
      else s2
  | none => { s with showEmailModal := false }

/-- onDisconnect of part_000: reset the connection flags and the auto
modal, then invoke the stored wrapper with a connection-lost failure; the
wrapper hits the unbound reject, so the statements that would clear the
resolver and close the modal are skipped. -/
def onDisconnect (s : V0State) : V0State :=
  let s1 := { s with isSecureConnection := false, callStartTime := none,
                     showAutoEmailModal := false }
  match s1.resolver with
  | some pid =>
      let r : EmailCaptureResult :=
        ⟨none, false, "Connection lost - email capture cancelled."⟩
      let (s2, completed) := invokeStoredResolver pid r s1
      if completed then
        { runCleanupV0 { s2 with resolver := none } with showEmailModal := false }
      else s2
  | none => s1

/-- Outcome of the webhook image load used by the auto flow. -/
inductive ImgOutcome where
  | loaded
  | failed
deriving DecidableEq, Repr

/-- handleAutoEmailSubmit of part_000: issue the image-side-channel webhook
request and close the auto modal; both the onload and the onerror callback
only log, so the outcome does not change the state. -/
def handleAutoEmailSubmit (_imgResult : ImgOutcome) (email : String)
    (s : V0State) : V0State :=
  { s with autoWebhook := s.autoWebhook ++ [email],
           showAutoEmailModal := false }

end Var0

namespace Var1

/-- State of the src/unnamed/part_001 component: the capture_Email tool
stashes the resolve function on the window object (`windowResolve`), with
no timeout and no supersede handling. -/
structure V1State where
  showEmailModal : Bool
  emailInput : String
  emailPrompt : String
  windowResolve : Option Nat
  resolutions : List (Nat × EmailCaptureResult)
  nextId : Nat
deriving DecidableEq, Repr

def v1Init : V1State :=
  { showEmailModal := false, emailInput := "", emailPrompt := "",
    windowResolve := none, resolutions := [], nextId := 0 }

def v1Success (t : String) : EmailCaptureResult :=
  ⟨some t, true, "Email " ++ t ++ " has been captured successfully."⟩

def v1Cancelled : EmailCaptureResult :=
  ⟨none, false, "Email capture was cancelled by the user."⟩

/-- The capture_Email client tool of part_001: set the prompt, open the
modal, clear the input, and stash the new resolve function on the window
object, silently overwriting whatever was there. -/
def capture_Email (promptParam : Option String) (s : V1State) : V1State × Nat :=
  let pid := s.nextId
  ({ s with emailPrompt := promptParam.getD "Please enter your email address:",
            showEmailModal := true,
            emailInput := "",
            windowResolve := some pid,
            nextId := pid + 1 }, pid)

/-- handleEmailSubmit of part_001: with a nonempty trimmed input, resolve
the stashed promise (if any) with a success result and delete the stash,
then close the modal. -/
def handleEmailSubmit (s : V1State) : V1State :=
  if jsTrim s.emailInput = "" then s
  else
    let t := jsTrim s.emailInput
    let s1 :=
      match s.windowResolve with
      | some pid =>
          { s with
            resolutions := s.resolutions ++ [(pid, v1Success t)],
            windowResolve := none }
      | none => s
    { s1 with showEmailModal := false, emailInput := "" }

/-- handleEmailCancel of part_001: resolve the stashed promise (if any)
with a cancelled result and delete the stash, then close the modal. -/
def handleEmailCancel (s : V1State) : V1State :=
  let s1 :=
    match s.windowResolve with
    | some pid =>
        { s with
          resolutions := s.resolutions ++ [(pid, v1Cancelled)],
          windowResolve := none }
    | none => s
  { s1 with showEmailModal := false, emailInput := "" }

/-- The events that can reach the part_001 capture slot. -/
inductive V1Event where
  | openReq (promptParam : Option String)
  | typeInput (raw : String)
  | submit
  | cancel
deriving DecidableEq, Repr

def v1Step : V1Event → V1State → V1State
  | .openReq p, s => (capture_Email p s).1
  | .typeInput raw, s => { s with emailInput := raw }
  | .submit, s => handleEmailSubmit s
  | .cancel, s => handleEmailCancel s

def v1Run : List V1Event → V1State → V1State
  | [], s => s
  | e :: l, s => v1Run l (v1Step e s)

end Var1

namespace Hook

/-- State of the src/unnamed/part_005 useVoiceAssistant hook together with
the part_003 modal listener: the hook stores a wrapper on the window object
that clears the 60s timeout and resolves, and opens the modal by
dispatching a showEmailModal event that part_003 listens for. -/
structure HState where
  showEmailModal : Bool
  emailInput : String
  emailPrompt : String
  isSecureConnection : Bool
  connectionAttempts : Nat
  windowResolve : Option Nat
  timers : List Nat
  resolveCalls : List (Nat × EmailCaptureResult)
  nextId : Nat
deriving DecidableEq, Repr

def hInit : HState :=
  { showEmailModal := false, emailInput := "", emailPrompt := "",
    isSecureConnection := false, connectionAttempts := 0,
    windowResolve := none, timers := [], resolveCalls := [], nextId := 0 }

def hookTimeoutResult : EmailCaptureResult :=
  ⟨none, false, "Email capture timed out after 60 seconds."⟩

def hookSuccess (t : String) : EmailCaptureResult :=
  ⟨some t, true, "Email " ++ t ++ " captured successfully."⟩

/-- The capture_Email tool of the hook: schedule the 60s timeout, stash the
wrapper resolver on the window object, and dispatch the showEmailModal
event, which the part_003 listener answers by setting the prompt, opening
the modal and clearing the input. -/
def capture_Email (promptParam : Option String) (s : HState) : HState × Nat :=
  let pid := s.nextId
  ({ s with timers := s.timers ++ [pid],
            windowResolve := some pid,
            emailPrompt := promptParam.getD "Please enter your email address:",
            showEmailModal := true,
            emailInput := "",
            nextId := pid + 1 }, pid)

/-- The 60s timeout of the hook: it only resolves the promise with the
timeout result — it does not close the modal and does not clear the stored
resolver. -/
def timeoutFire (pid : Nat) (s : HState) : HState :=
  if pid ∈ s.timers then
    { s with timers := s.timers.erase pid,
             resolveCalls := s.resolveCalls ++ [(pid, hookTimeoutResult)] }
  else s

/-- handleEmailSubmit of part_003: with a nonempty trimmed input (the
regex check there only logs a warning), invoke the window wrapper, which
clears the timeout and calls resolve, delete the stash, and close the
modal. -/
def handleEmailSubmit (s : HState) : HState :=
  if jsTrim s.emailInput = "" then s
  else
    let t := jsTrim s.emailInput
    let s1 :=
      match s.windowResolve with
      | some pid =>
          { s with timers := s.timers.erase pid,
                   resolveCalls := s.resolveCalls ++ [(pid, hookSuccess t)],
                   windowResolve := none }
      | none => s
    { s1 with showEmailModal := false, emailInput := "" }

/-- handleEndSession of part_005: endSession is awaited in a try whose
catch only logs, and the finally block resets the secure flag and the
retry counter whether or not endSession threw. -/
def handleEndSession (_endSessionThrew : Bool) (s : HState) : HState :=
  { s with isSecureConnection := false, connectionAttempts := 0 }

end Hook

namespace PopupA

/-- Outcome of the fetch to the webhook in the first EmailPopup copy. -/
inductive FetchOutcome where
  | ok
  | badStatus
  | netError
deriving DecidableEq, Repr

/-- State of the first EmailPopup copy (fetch-based webhook).  `submitted`
logs the onSubmit calls handed to the parent (which resolves the pending
future and closes the modal); `fetchRequests` logs the webhook GET
requests issued. -/
structure PState where
  email : String
  isSubmitting : Bool
  error : String
  submitted : List String
  fetchRequests : List String
deriving DecidableEq, Repr

def pInit (email : String) : PState :=
  { email := email, isSubmitting := false, error := "",
    submitted := [], fetchRequests := [] }

/-- handleSubmit of the fetch-based EmailPopup: validate (empty, then
regex), then always issue the webhook fetch; only an ok response calls
onSubmit, a bad status or a network error sets an inline error instead.
The autoTrigger prop is not read by this handler. -/
def handleSubmit (_autoTrigger : Bool) (outcome : FetchOutcome)
    (s : PState) : PState :=
  if s.isSubmitting then s
  else
    let t := jsTrim s.email
    if t = "" then { s with error := "Email is required" }
    else if emailRegexTest t = false then
      { s with error := "Please enter a valid email address" }
    else
      let s1 := { s with error := "", fetchRequests := s.fetchRequests ++ [t] }
      match outcome with
      | .ok =>
          { s1 with submitted := s1.submitted ++ [t], email := "",
                    isSubmitting := false }
      | .badStatus =>
          { s1 with error := "Failed to submit email. Please try again.",
                    isSubmitting := false }
      | .netError =>
          { s1 with error := "Network error. Please try again.",
                    isSubmitting := false }

end PopupA

namespace PopupB

/-- State of the second EmailPopup copy (isAgentTool prop, image-side-channel
webhook).  `imgRequests` logs the webhook deliveries issued by setting the
image source. -/
structure PState where
  email : String
  isSubmitting : Bool
  error : String
  submitted : List String
  imgRequests : List String
deriving DecidableEq, Repr

def pInit (email : String) : PState :=
  { email := email, isSubmitting := false, error := "",
    submitted := [], imgRequests := [] }

/-- handleSubmit of the isAgentTool EmailPopup: validate (empty, then
regex); in agent-tool mode call onSubmit with the trimmed email directly
and skip the webhook; otherwise issue the image-side-channel webhook
request, whose onload and onerror callbacks both call onSubmit, so the
delivery outcome cannot block the submission. -/
def handleSubmit (isAgentTool : Bool) (_imgErrored : Bool)
    (s : PState) : PState :=
  if s.isSubmitting then s
  else
    let t := jsTrim s.email
    if t = "" then { s with error := "E-post krävs" }
    else if emailRegexTest t = false then
      { s with error := "Vänligen ange en giltig e-postadress" }
    else if isAgentTool then
      { s with error := "", submitted := s.submitted ++ [t], email := "",
               isSubmitting := false }
    else
      { s with error := "", imgRequests := s.imgRequests ++ [t],
               submitted := s.submitted ++ [t], email := "",
               isSubmitting := false }

end PopupB

namespace Sess

/-- Outcome of one conversation.startSession attempt (raced against the 8s
connection timeout): success or failure. -/
inductive ConnectOutcome where
  | ok
  | fail
deriving DecidableEq, Repr

/-- What the handleStartSession retry loop ends with. -/
inductive StartResult where
  | connected
  | terminalFailure
deriving DecidableEq, Repr

def RETRY_ATTEMPTS : Nat := 3

/-- The handleStartSession retry loop of App.tsx as it actually executes:
the catch branch reschedules the same memoized closure (the arrow passed
to setTimeout resolves handleStartSession in its own render scope), so the
cap check re-reads the frozen connectionAttempts value of the render that
created the closure.  The state counter does rise through the functional
updater, but the guard never sees it.  Given the frozen counter value and
the sequence of attempt outcomes, returns the number of startSession calls
performed, the 1000ms backoff delays scheduled between them, and how the
loop ended (none when the outcome list ran out with a retry still
scheduled). -/
def handleStartSession (frozenAttempts : Nat) :
    List ConnectOutcome → Nat × List Nat × Option StartResult
  | [] => (0, [], none)
  | .ok :: _ => (1, [], some .connected)
  | .fail :: rest =>
      if frozenAttempts < RETRY_ATTEMPTS then
        let (n, ds, r) := handleStartSession frozenAttempts rest
        (1 + n, 1000 :: ds, r)
      else (1, [], some .terminalFailure)

end Sess

/-- The state of App.tsx right after the capture_Email tool has been invoked
once from the initial state: promise id 0 is pending. -/
def appOpen1 : AppMain.AppState := (AppMain.capture_Email AppMain.appInit).1

/-- The state of part_000 right after the get_email tool has been invoked
once from the initial state: promise id 0 is pending. -/
def v0Open1 : Var0.V0State := (Var0.get_email Var0.v0Init).1

/-- The state of part_001 right after its capture_Email tool has been
invoked twice in a row: promise id 0 was pending when promise id 1 was
installed over it. -/
def v1Open2 : Var1.V1State :=
  (Var1.capture_Email none (Var1.capture_Email none Var1.v1Init).1).1

/-- Invariant of the part_001 slot after the second open: the overwritten
promise id 0 can never be resolved again, because the window stash never
points at it and resolve calls only ever use the stashed id. -/
structure Var1.Overwritten (s : Var1.V1State) : Prop where
  no_zero : s.resolutions.filter (fun p => p.1 == 0) = []
  stash_ne : s.windowResolve ≠ some 0
  id_pos : 0 < s.nextId

/-- Invariant of the App.tsx slot while exactly one capture request
(promise id 0) has been opened and only submit, cancel and timeout events
are applied to it. -/
structure AppMain.OneReqInv (s : AppMain.AppState) : Prop where
  resolver_ok : s.resolver = none ∨ s.resolver = some 0
  timers_ok : s.timers = [] ∨ s.timers = [0]
  cleanup_ok : s.cleanup = none ∨ s.cleanup = some 0
  notSubmitting : s.isSubmittingEmail = false
  count_le : resolveCallCount 0 s.resolutions ≤ 1
  pending_count :
    (s.resolver = some 0 ∨ s.timers = [0]) → resolveCallCount 0 s.resolutions = 0
  cleanup_present : s.resolver = some 0 → s.cleanup = some 0

theorem resolveCallCount_append (pid : Nat) (l m : List (Nat × EmailCaptureResult)) :
    resolveCallCount pid (l ++ m) = resolveCallCount pid l + resolveCallCount pid m := by
  simp [resolveCallCount, List.filter_append]

theorem find?_append_of_none {α : Type} (p : α → Bool) (l m : List α)
    (h : l.find? p = none) : (l ++ m).find? p = m.find? p := by
  induction l with
  | nil => simp
  | cons a t ih =>
      cases hpa : p a with
      | true => rw [List.find?_cons_of_pos _ hpa] at h; cases h
      | false =>
          have hpa' : ¬ p a = true := by simp [hpa]
          rw [List.find?_cons_of_neg _ hpa'] at h
          rw [List.cons_append, List.find?_cons_of_neg _ hpa']
          exact ih h

theorem runCleanup_resolutions (s : AppMain.AppState) :
    (AppMain.runCleanup s).resolutions = s.resolutions := by
  cases h : s.cleanup <;> simp [AppMain.runCleanup, h]

theorem runCleanup_thrown (s : AppMain.AppState) :
    (AppMain.runCleanup s).thrown = s.thrown := by
  cases h : s.cleanup <;> simp [AppMain.runCleanup, h]

example : appOpen1.resolver = some 0 ∧ appOpen1.timers = [0] := by decide

example : emailRegexTest "a@b.c" = true := by decide
example : emailRegexTest "not-an-email" = false := by decide
example : jsTrim " a@b.c " = "a@b.c" := by decide

theorem v1Step_overwritten (e : Var1.V1Event) (s : Var1.V1State)
    (h : Var1.Overwritten s) : Var1.Overwritten (Var1.v1Step e s) := by
  obtain ⟨h1, h2, h3⟩ := h
  cases e with
  | openReq p =>
      refine ⟨h1, ?_, ?_⟩
      · simp only [Var1.v1Step, Var1.capture_Email]
        intro hc
        rw [Option.some.injEq] at hc
        omega
      · simp only [Var1.v1Step, Var1.capture_Email]
        omega
  | typeInput raw => exact ⟨h1, h2, h3⟩
  | submit =>
      simp only [Var1.v1Step, Var1.handleEmailSubmit]
      by_cases hin : jsTrim s.emailInput = ""
      · rw [if_pos hin]; exact ⟨h1, h2, h3⟩
      · rw [if_neg hin]
        cases hw : s.windowResolve with
        | none => exact ⟨h1, h2, h3⟩
        | some pid =>
            have hp : (pid == 0) = false := by
              rw [beq_eq_false_iff_ne]
              intro hpid
              exact h2 (by rw [hw, hpid])
            refine ⟨?_, by simp, h3⟩
            simp [List.filter_append, h1, hp]
  | cancel =>
      simp only [Var1.v1Step, Var1.handleEmailCancel]
      cases hw : s.windowResolve with
      | none => exact ⟨h1, h2, h3⟩
      | some pid =>
          have hp : (pid == 0) = false := by
            rw [beq_eq_false_iff_ne]
            intro hpid
            exact h2 (by rw [hw, hpid])
          refine ⟨?_, by simp, h3⟩
          simp [List.filter_append, h1, hp]

theorem v1Run_overwritten (l : List Var1.V1Event) :
    ∀ s : Var1.V1State, Var1.Overwritten s → Var1.Overwritten (Var1.v1Run l s) := by
  induction l with
  | nil => intro s h; exact h
  | cons e t ih =>
      intro s h
      exact ih _ (v1Step_overwritten e s h)

theorem handleEmailSubmit_busy (s : AppMain.AppState)
    (hsub : s.isSubmittingEmail = true) : AppMain.handleEmailSubmit s = s := by
  simp [AppMain.handleEmailSubmit, hsub]

theorem handleEmailSubmit_empty (s : AppMain.AppState)
    (hsub : s.isSubmittingEmail = false) (hin : jsTrim s.emailInput = "") :
    AppMain.handleEmailSubmit s = s := by
  simp [AppMain.handleEmailSubmit, hsub, hin]

theorem handleEmailSubmit_noResolver (s : AppMain.AppState)
    (hsub : s.isSubmittingEmail = false) (hin : jsTrim s.emailInput ≠ "")
    (hw : s.resolver = none) :
    AppMain.handleEmailSubmit s =
      { s with showEmailModal := false, emailInput := "",
               isSubmittingEmail := false } := by
  simp [AppMain.handleEmailSubmit, hsub, hin, hw]

theorem handleEmailSubmit_resolved (s : AppMain.AppState) (pid : Nat)
    (hsub : s.isSubmittingEmail = false) (hin : jsTrim s.emailInput ≠ "")
    (hw : s.resolver = some pid) (hcl : s.cleanup = some pid) :
    AppMain.handleEmailSubmit s =
      { s with showEmailModal := false, emailInput := "",
               isSubmittingEmail := false, resolver := none, cleanup := none,
               timers := s.timers.erase pid,
               resolutions := s.resolutions ++
                 [(pid, AppMain.bookingSuccess (jsTrim s.emailInput))] } := by
  simp [AppMain.handleEmailSubmit, hsub, hin, hw, AppMain.runCleanup, hcl]

theorem handleEmailCancel_noResolver (s : AppMain.AppState)
    (hw : s.resolver = none) :
    AppMain.handleEmailCancel s =
      { s with showEmailModal := false, emailInput := "",
               isSubmittingEmail := false } := by
  simp [AppMain.handleEmailCancel, hw]

theorem handleEmailCancel_resolved (s : AppMain.AppState) (pid : Nat)
    (hw : s.resolver = some pid) (hcl : s.cleanup = some pid) :
    AppMain.handleEmailCancel s =
      { s with showEmailModal := false, emailInput := "",
               isSubmittingEmail := false, resolver := none, cleanup := none,
               timers := s.timers.erase pid,
               resolutions := s.resolutions ++ [(pid, AppMain.cancelledResult)] } := by
  simp [AppMain.handleEmailCancel, hw, AppMain.runCleanup, hcl]

theorem timeoutFire_mem (pid : Nat) (s : AppMain.AppState)
    (hmem : pid ∈ s.timers) :
    AppMain.timeoutFire pid s =
      { s with timers := s.timers.erase pid, resolver := none,
               showEmailModal := false, isSubmittingEmail := false,
               resolutions := s.resolutions ++ [(pid, AppMain.timeoutResult)] } := by
  simp [AppMain.timeoutFire, hmem]

theorem timeoutFire_not_mem (pid : Nat) (s : AppMain.AppState)
    (hmem : pid ∉ s.timers) : AppMain.timeoutFire pid s = s := by
  simp [AppMain.timeoutFire, hmem]

theorem onDisconnect_stale (s : AppMain.AppState) :
    AppMain.onDisconnect s = { s with isSecureConnection := false } := rfl

theorem resolveCallCount_self (pid : Nat) (r : EmailCaptureResult) :
    resolveCallCount pid [(pid, r)] = 1 := by
  simp [resolveCallCount]

theorem capStep_oneReq (e : AppMain.CapEvent) (s : AppMain.AppState)
    (h : AppMain.OneReqInv s) : AppMain.OneReqInv (AppMain.capStep e s) := by
  obtain ⟨hr, ht, hc, hsub, hcle, hpc, hcp⟩ := h
  have herase : s.timers.erase 0 = [] := by
    rcases ht with h0 | h0 <;> rw [h0] <;> decide
  cases e with
  | submit raw =>
      show AppMain.OneReqInv (AppMain.handleEmailSubmit { s with emailInput := raw })
      by_cases hin : jsTrim raw = ""
      · rw [handleEmailSubmit_empty { s with emailInput := raw } hsub hin]
        exact ⟨hr, ht, hc, hsub, hcle, hpc, hcp⟩
      · rcases hr with hw | hw
        · rw [handleEmailSubmit_noResolver { s with emailInput := raw } hsub hin hw]
          exact ⟨Or.inl hw, ht, hc, rfl, hcle, hpc, hcp⟩
        · have hcl : s.cleanup = some 0 := hcp hw
          have hcount : resolveCallCount 0 s.resolutions = 0 := hpc (Or.inl hw)
          rw [handleEmailSubmit_resolved { s with emailInput := raw } 0 hsub hin hw hcl]
          refine ⟨Or.inl rfl, Or.inl herase, Or.inl rfl, rfl, ?_, ?_, ?_⟩
          · rw [resolveCallCount_append, hcount, resolveCallCount_self]
          · intro hor
            rcases hor with h0 | h0
            · exact absurd h0 (by simp)
            · rw [herase] at h0; cases h0
          · intro h0; exact absurd h0 (by simp)
  | cancel =>
      show AppMain.OneReqInv (AppMain.handleEmailCancel s)
      rcases hr with hw | hw
      · rw [handleEmailCancel_noResolver _ hw]
        exact ⟨Or.inl hw, ht, hc, rfl, hcle, hpc, hcp⟩
      · have hcl : s.cleanup = some 0 := hcp hw
        have hcount : resolveCallCount 0 s.resolutions = 0 := hpc (Or.inl hw)
        rw [handleEmailCancel_resolved _ 0 hw hcl]
        refine ⟨Or.inl rfl, Or.inl herase, Or.inl rfl, rfl, ?_, ?_, ?_⟩
        · rw [resolveCallCount_append, hcount, resolveCallCount_self]
        · intro hor
          rcases hor with h0 | h0
          · exact absurd h0 (by simp)
          · rw [herase] at h0; cases h0
        · intro h0; exact absurd h0 (by simp)
  | timeout =>
      show AppMain.OneReqInv (AppMain.timeoutFire 0 s)
      by_cases hmem : 0 ∈ s.timers
      · have hcount : resolveCallCount 0 s.resolutions = 0 := by
          apply hpc
          rcases ht with h0 | h0
          · rw [h0] at hmem; cases hmem
          · exact Or.inr h0
        rw [timeoutFire_mem _ _ hmem]
        refine ⟨Or.inl rfl, Or.inl herase, hc, rfl, ?_, ?_, ?_⟩
        · rw [resolveCallCount_append, hcount, resolveCallCount_self]
        · intro hor
          rcases hor with h0 | h0
          · exact absurd h0 (by simp)
          · rw [herase] at h0; cases h0
        · intro h0; exact absurd h0 (by simp)
      · rw [timeoutFire_not_mem _ _ hmem]
        exact ⟨hr, ht, hc, hsub, hcle, hpc, hcp⟩

theorem runCap_oneReq (l : List AppMain.CapEvent) :
    ∀ s : AppMain.AppState, AppMain.OneReqInv s →
      AppMain.OneReqInv (AppMain.runCap l s) := by
  induction l with
  | nil => intro s h; exact h
  | cons e t ih => intro s h; exact ih _ (capStep_oneReq e s h)

theorem sess_frozen_all_fail : ∀ n : Nat,
    (Sess.handleStartSession 0 (List.replicate n Sess.ConnectOutcome.fail)).1 = n := by
  intro n
  induction n with
  | zero => rfl
  | succ k ih =>
      rcases heq : Sess.handleStartSession 0 (List.replicate k Sess.ConnectOutcome.fail)
        with ⟨m, ds, r⟩
      rw [heq] at ih
      simp only at ih
      rw [List.replicate_succ]
      simp only [Sess.handleStartSession, heq,
        if_pos (show 0 < Sess.RETRY_ATTEMPTS by decide)]
      show 1 + m = k + 1
      omega

/-- Claim C1 counterexample: invoking the capture tool a second time while
promise id 0 is still pending leaves the log of resolve calls empty even
though the second request is already fully observable (its resolver is
installed and, in App.tsx, the modal is open), so the earlier future is
not resolved with a superseded failure before the new request becomes
observable — neither in part_001 nor in App.tsx. -/
theorem c1_counterexample :
    v1Open2.resolutions = [] ∧ v1Open2.windowResolve = some 1 ∧
    (AppMain.capture_Email appOpen1).1.resolutions = [] ∧
    (AppMain.capture_Email appOpen1).1.resolver = some 1 ∧
    (AppMain.capture_Email appOpen1).1.showEmailModal = true := by
  decide

/-- Claim C1 amended: opening a second capture request while one is pending
does not resolve the earlier future at all — the new resolver simply
replaces the old one — and in the part_001 variant the overwritten future
can never be resolved by any later sequence of open, type, submit or
cancel events, so it is left permanently unresolved. -/
theorem c1_amended_no_supersede :
    v1Open2.resolutions = [] ∧ v1Open2.windowResolve = some 1 ∧
    ∀ l : List Var1.V1Event,
      (Var1.v1Run l v1Open2).resolutions.filter (fun p => p.1 == 0) = [] := by
  refine ⟨by decide, by decide, ?_⟩
  intro l
  exact (v1Run_overwritten l v1Open2 ⟨by decide, by decide, by decide⟩).no_zero

/-- Claim C2: the claim describes the intended validation gate and the
EmailPopup component implements it, but in App.tsx the handleEmailSubmit
function computes the regex check into an unused variable and resolves the
pending future with success anyway: submitting the invalid address
not-an-email resolves the future with success true and closes the modal,
although the regex rejects it; the empty submit does leave the request
open and unresolved, and the isAgentTool EmailPopup correctly rejects the
invalid address inline and accepts the padded valid one trimmed. -/
theorem c2_validation_unused :
    (AppMain.handleEmailSubmit { appOpen1 with emailInput := "not-an-email" }).resolutions
        = [(0, AppMain.bookingSuccess "not-an-email")] ∧
    (AppMain.handleEmailSubmit { appOpen1 with emailInput := "not-an-email" }).showEmailModal
        = false ∧
    emailRegexTest "not-an-email" = false ∧
    (AppMain.handleEmailSubmit { appOpen1 with emailInput := "" }).resolutions = [] ∧
    (AppMain.handleEmailSubmit { appOpen1 with emailInput := "" }).showEmailModal = true ∧
    (PopupB.handleSubmit true false (PopupB.pInit "not-an-email")).error
        = "Vänligen ange en giltig e-postadress" ∧
    (PopupB.handleSubmit true false (PopupB.pInit "not-an-email")).submitted = [] ∧
    (PopupB.handleSubmit true false (PopupB.pInit " a@b.c ")).submitted = ["a@b.c"] := by
  decide

/-- Claim C3 counterexample: in part_000, when the 1s get_email timeout
fires, the code calls reject, which the promise executor never bound, so a
ReferenceError is raised and the promise is left unsettled — the outcome
is not delivered by resolving the promise with a result object. -/
theorem c3_counterexample :
    (Var0.timeoutFire 0 v0Open1).settled = [] ∧
    (Var0.timeoutFire 0 v0Open1).thrown = [Var0.refErr] ∧
    (Var0.timeoutFire 0 v0Open1).resolver = none := by
  decide

/-- Claim C3 amended: in the App.tsx capture_Email slot the submit, cancel
and timeout outcomes are each delivered by resolving the pending promise
with a result object and no path rejects the promise or throws; the
disconnect handler, whose closure is pinned to the initial null resolver,
resolves nothing and throws nothing, leaving a pending future to its own
timeout; the part_000 get_email variant instead settles the promise only
on success (with the raw email string) and its timeout, cancel and
disconnect paths raise a ReferenceError from an unbound reject, leaving
the promise unsettled. -/
theorem c3_amended_resolved_results (s : AppMain.AppState) (pid : Nat)
    (hRes : s.resolver = some pid) (hTim : pid ∈ s.timers)
    (hIn : jsTrim s.emailInput ≠ "") (hSub : s.isSubmittingEmail = false)
    (hCl : s.cleanup = some pid) :
    ((AppMain.handleEmailCancel s).resolutions
        = s.resolutions ++ [(pid, AppMain.cancelledResult)] ∧
      (AppMain.handleEmailCancel s).thrown = s.thrown) ∧
    ((AppMain.timeoutFire pid s).resolutions
        = s.resolutions ++ [(pid, AppMain.timeoutResult)] ∧
      (AppMain.timeoutFire pid s).thrown = s.thrown) ∧
    ((AppMain.handleEmailSubmit s).resolutions
        = s.resolutions ++ [(pid, AppMain.bookingSuccess (jsTrim s.emailInput))] ∧
      (AppMain.handleEmailSubmit s).thrown = s.thrown) ∧
    ((AppMain.onDisconnect s).resolutions = s.resolutions ∧
      (AppMain.onDisconnect s).thrown = s.thrown) := by
  refine ⟨?_, ?_, ?_, ⟨rfl, rfl⟩⟩
  · rw [handleEmailCancel_resolved s pid hRes hCl]
    exact ⟨rfl, rfl⟩
  · rw [timeoutFire_mem pid s hTim]
    exact ⟨rfl, rfl⟩
  · rw [handleEmailSubmit_resolved s pid hSub hIn hRes hCl]
    exact ⟨rfl, rfl⟩

/-- Claim C3 witness: the amended theorem applied to the concrete state in
which promise id 0 is pending and the input holds a padded valid address. -/
theorem c3_witness :
    ((AppMain.handleEmailCancel { appOpen1 with emailInput := " a@b.c " }).resolutions
        = ({ appOpen1 with emailInput := " a@b.c " } : AppMain.AppState).resolutions
            ++ [(0, AppMain.cancelledResult)] ∧
      (AppMain.handleEmailCancel { appOpen1 with emailInput := " a@b.c " }).thrown
        = ({ appOpen1 with emailInput := " a@b.c " } : AppMain.AppState).thrown) ∧
    ((AppMain.timeoutFire 0 { appOpen1 with emailInput := " a@b.c " }).resolutions
        = ({ appOpen1 with emailInput := " a@b.c " } : AppMain.AppState).resolutions
            ++ [(0, AppMain.timeoutResult)] ∧
      (AppMain.timeoutFire 0 { appOpen1 with emailInput := " a@b.c " }).thrown
        = ({ appOpen1 with emailInput := " a@b.c " } : AppMain.AppState).thrown) ∧
    ((AppMain.handleEmailSubmit { appOpen1 with emailInput := " a@b.c " }).resolutions
        = ({ appOpen1 with emailInput := " a@b.c " } : AppMain.AppState).resolutions
            ++ [(0, AppMain.bookingSuccess (jsTrim " a@b.c "))] ∧
      (AppMain.handleEmailSubmit { appOpen1 with emailInput := " a@b.c " }).thrown
        = ({ appOpen1 with emailInput := " a@b.c " } : AppMain.AppState).thrown) ∧
    ((AppMain.onDisconnect { appOpen1 with emailInput := " a@b.c " }).resolutions
        = ({ appOpen1 with emailInput := " a@b.c " } : AppMain.AppState).resolutions ∧
      (AppMain.onDisconnect { appOpen1 with emailInput := " a@b.c " }).thrown
        = ({ appOpen1 with emailInput := " a@b.c " } : AppMain.AppState).thrown) :=
  c3_amended_resolved_results { appOpen1 with emailInput := " a@b.c " } 0
    (by decide) (by decide) (by decide) (by decide) (by decide)

/-- Claim C4: the claim matches the evident intent — App.tsx even contains
a cleanup block that builds the connection-lost failure result — but the
program lacks the behavior on both cited paths.  In App.tsx the
onDisconnect closure is pinned to the initial null resolver, so with
promise id 0 pending the disconnect resolves nothing and leaves the
resolver, modal and timer in place; the future outlives the session and is
settled only later by its own capture timeout.  In part_000 the stored
wrapper is invoked with the failure result but hits an unbound reject: a
ReferenceError is raised, the future stays unresolved, and the resolver
slot and modal are left in place. -/
theorem c4_disconnect_dead_code :
    (AppMain.onDisconnect appOpen1).resolutions = [] ∧
    (AppMain.onDisconnect appOpen1).resolver = some 0 ∧
    (AppMain.onDisconnect appOpen1).showEmailModal = true ∧
    (AppMain.onDisconnect appOpen1).timers = [0] ∧
    (AppMain.onDisconnect appOpen1).isSecureConnection = false ∧
    (AppMain.timeoutFire 0 (AppMain.onDisconnect appOpen1)).resolutions
        = [(0, AppMain.timeoutResult)] ∧
    (Var0.onDisconnect v0Open1).settled = [] ∧
    (Var0.onDisconnect v0Open1).resolver = some 0 ∧
    (Var0.onDisconnect v0Open1).thrown = [Var0.refErr] ∧
    (Var0.onDisconnect v0Open1).showEmailModal = true := by
  decide

/-- Claim C5: for any sequence of submit, cancel and timeout events applied
to the single App.tsx capture request with promise id 0, at most one
resolve call ever reaches its future; concretely, a timeout followed by a
valid submit leaves exactly the timeout resolution, a valid submit followed
by cancel and timeout leaves exactly the success resolution, and a
completed submit clears the pending timeout timer. -/
theorem c5_first_event_wins :
    (∀ l : List AppMain.CapEvent,
        resolveCallCount 0 (AppMain.runCap l appOpen1).resolutions ≤ 1) ∧
    (AppMain.runCap [AppMain.CapEvent.timeout, AppMain.CapEvent.submit " a@b.c "]
        appOpen1).resolutions = [(0, AppMain.timeoutResult)] ∧
    (AppMain.runCap [AppMain.CapEvent.submit " a@b.c ", AppMain.CapEvent.cancel,
        AppMain.CapEvent.timeout] appOpen1).resolutions
      = [(0, AppMain.bookingSuccess "a@b.c")] ∧
    (AppMain.runCap [AppMain.CapEvent.submit "a@b.c"] appOpen1).timers = [] := by
  refine ⟨?_, by decide, by decide, by decide⟩
  intro l
  exact (runCap_oneReq l appOpen1
    ⟨by decide, by decide, by decide, by decide, by decide,
     fun _ => by decide, fun _ => by decide⟩).count_le

/-- Claim C6 counterexample: in the part_005 hook, when the 60s timeout
fires on an untouched capture request, the future settles with the timeout
failure result, but the modal is not closed and the stored window resolver
is not cleared, so the form does not close as the claim requires. -/
theorem c6_counterexample :
    settledResult 0 (Hook.timeoutFire 0 (Hook.capture_Email none Hook.hInit).1).resolveCalls
        = some Hook.hookTimeoutResult ∧
    (Hook.timeoutFire 0 (Hook.capture_Email none Hook.hInit).1).showEmailModal = true ∧
    (Hook.timeoutFire 0 (Hook.capture_Email none Hook.hInit).1).windowResolve = some 0 := by
  decide

/-- Claim C6 amended: when the timeout fires on a request that was neither
submitted nor cancelled, the future settles exactly once with the
email-null success-false timeout result — in App.tsx the modal is also
closed, the resolver cleared and the timer descheduled, while in the
part_005 hook variant the future settles with its timeout result but the
modal stays open and the resolver stays installed. -/
theorem c6_amended_timeout_once (s : AppMain.AppState) (pid : Nat)
    (hTim : pid ∈ s.timers)
    (hNone : s.resolutions.find? (fun p => p.1 == pid) = none) :
    settledResult pid (AppMain.timeoutFire pid s).resolutions
        = some AppMain.timeoutResult ∧
    (AppMain.timeoutFire pid s).showEmailModal = false ∧
    (AppMain.timeoutFire pid s).resolver = none ∧
    (AppMain.timeoutFire pid s).timers = s.timers.erase pid := by
  rw [timeoutFire_mem pid s hTim]
  refine ⟨?_, rfl, rfl, rfl⟩
  simp only [settledResult]
  rw [find?_append_of_none _ _ _ hNone]
  simp [List.find?]

/-- Claim C6 witness: the amended theorem applied to the concrete App.tsx
state in which promise id 0 is pending and untouched. -/
theorem c6_witness :
    settledResult 0 (AppMain.timeoutFire 0 appOpen1).resolutions
        = some AppMain.timeoutResult ∧
    (AppMain.timeoutFire 0 appOpen1).showEmailModal = false ∧
    (AppMain.timeoutFire 0 appOpen1).resolver = none ∧
    (AppMain.timeoutFire 0 appOpen1).timers = appOpen1.timers.erase 0 :=
  c6_amended_timeout_once appOpen1 0 (by decide) (by decide)

/-- Claim C7 counterexample: in the fetch-based EmailPopup variant the
handleSubmit closure never reads the autoTrigger prop, so even with
autoTrigger false (the agent-origin rendering of that component) a valid
submit issues a webhook delivery of the captured email — the delivery is
not restricted to the auto-trigger origin. -/
theorem c7_counterexample :
    (PopupA.handleSubmit false PopupA.FetchOutcome.ok
        (PopupA.pInit " a@b.c ")).fetchRequests = ["a@b.c"] ∧
    (PopupA.handleSubmit false PopupA.FetchOutcome.ok
        (PopupA.pInit " a@b.c ")).submitted = ["a@b.c"] := by
  decide

/-- Claim C7 amended: on a successful submit the pending future resolves
with the captured email and the form closes; in the part_000 wiring and
the isAgentTool EmailPopup, a webhook delivery is enqueued only for the
auto-trigger origin, and the agent-tool path hands the remote agent the
raw trimmed email string rather than the result object; in the fetch-based
EmailPopup variant, however, the webhook request is issued on every valid
submit regardless of origin. -/
theorem c7_amended_webhook_routing :
    (∀ imgErrored : Bool,
        (PopupB.handleSubmit true imgErrored (PopupB.pInit " a@b.c ")).submitted
            = ["a@b.c"] ∧
        (PopupB.handleSubmit true imgErrored (PopupB.pInit " a@b.c ")).imgRequests
            = []) ∧
    (∀ imgErrored : Bool,
        (PopupB.handleSubmit false imgErrored (PopupB.pInit " a@b.c ")).submitted
            = ["a@b.c"] ∧
        (PopupB.handleSubmit false imgErrored (PopupB.pInit " a@b.c ")).imgRequests
            = ["a@b.c"]) ∧
    ((Var0.handleEmailSubmit "a@b.c" v0Open1).settled = [(0, "a@b.c")] ∧
     (Var0.handleEmailSubmit "a@b.c" v0Open1).showEmailModal = false ∧
     (Var0.handleEmailSubmit "a@b.c" v0Open1).resolver = none ∧
     (Var0.handleEmailSubmit "a@b.c" v0Open1).autoWebhook = []) ∧
    (∀ (auto : Bool) (outcome : PopupA.FetchOutcome),
        (PopupA.handleSubmit auto outcome (PopupA.pInit " a@b.c ")).fetchRequests
            = ["a@b.c"]) := by
  refine ⟨fun b => ?_, fun b => ?_, by decide, fun b o => ?_⟩
  · cases b <;> exact ⟨by decide, by decide⟩
  · cases b <;> exact ⟨by decide, by decide⟩
  · cases b <;> cases o <;> decide

/-- Claim C8: the claim matches the evident intent — the source defines
RETRY_ATTEMPTS = 3, guards the retry with connectionAttempts below the
cap, and renders the counter capped at 3 — but the retry reschedules the
same memoized closure, so the guard re-reads the frozen counter of the
render that created it.  A user-initiated chain is frozen at 0: five
consecutive failures produce five attempts (a 5th attempt occurs) with a
backoff scheduled after each failure and no terminal failure reported,
every all-fail sequence of length n produces n attempts (the retries are
unbounded), and the else branch that would report a terminal failure is
reached only by a chain whose frozen counter already sits at the cap. -/
theorem c8_retry_uncapped :
    (Sess.handleStartSession 0 (List.replicate 5 Sess.ConnectOutcome.fail)).1 = 5 ∧
    (Sess.handleStartSession 0 (List.replicate 5 Sess.ConnectOutcome.fail)).2.1
        = List.replicate 5 1000 ∧
    (Sess.handleStartSession 0 (List.replicate 5 Sess.ConnectOutcome.fail)).2.2
        = none ∧
    (∀ n : Nat,
        (Sess.handleStartSession 0 (List.replicate n Sess.ConnectOutcome.fail)).1 = n) ∧
    Sess.handleStartSession 3 [Sess.ConnectOutcome.fail]
        = (1, [], some Sess.StartResult.terminalFailure) := by
  exact ⟨by decide, by decide, by decide, sess_frozen_all_fail, by decide⟩

/-- Claim C9 counterexample: in the fetch-based EmailPopup variant a failed
webhook response surfaces an inline error message to the user and onSubmit
is not called, so the modal stays open and the pending future stays
unresolved — the delivery failure is not merely logged. -/
theorem c9_counterexample :
    (PopupA.handleSubmit true PopupA.FetchOutcome.badStatus
        (PopupA.pInit "a@b.c")).error = "Failed to submit email. Please try again." ∧
    (PopupA.handleSubmit true PopupA.FetchOutcome.badStatus
        (PopupA.pInit "a@b.c")).submitted = [] ∧
    (PopupA.handleSubmit true PopupA.FetchOutcome.badStatus
        (PopupA.pInit "a@b.c")).fetchRequests = ["a@b.c"] := by
  decide

/-- Claim C9 amended: the image-side-channel deliveries are fire-and-forget
— in part_000 handleAutoEmailSubmit the webhook request is issued exactly
once whatever the image outcome, only logging happens, the auto modal
closes, and the capture slot, its settled log and the exception log are
untouched; likewise the isAgentTool EmailPopup auto path calls onSubmit
whether the image load succeeds or fails — but in the fetch-based
EmailPopup variant a failed delivery surfaces an inline error and keeps
the modal open. -/
theorem c9_amended_fire_and_forget :
    (∀ (img : Var0.ImgOutcome) (email : String) (s : Var0.V0State),
        (Var0.handleAutoEmailSubmit img email s).showAutoEmailModal = false ∧
        (Var0.handleAutoEmailSubmit img email s).autoWebhook
            = s.autoWebhook ++ [email] ∧
        (Var0.handleAutoEmailSubmit img email s).resolver = s.resolver ∧
        (Var0.handleAutoEmailSubmit img email s).settled = s.settled ∧
        (Var0.handleAutoEmailSubmit img email s).thrown = s.thrown ∧
        (Var0.handleAutoEmailSubmit img email s).showEmailModal = s.showEmailModal ∧
        (Var0.handleAutoEmailSubmit img email s).nextId = s.nextId) ∧
    (∀ imgErrored : Bool,
        (PopupB.handleSubmit false imgErrored (PopupB.pInit "a@b.c")).submitted
            = ["a@b.c"] ∧
        (PopupB.handleSubmit false imgErrored (PopupB.pInit "a@b.c")).error = "") := by
  refine ⟨fun img email s => ?_, fun b => ?_⟩
  · exact ⟨rfl, rfl, rfl, rfl, rfl, rfl, rfl⟩
  · cases b <;> exact ⟨by decide, by decide⟩

/-- Claim C10: handleEndSession always leaves the connection state reset —
whether or not the vendor endSession call throws, the finally block sets
isSecureConnection to false and connectionAttempts to zero, both in
App.tsx and in the part_005 hook. -/
theorem c10_end_session_resets :
    ∀ (endSessionThrew : Bool) (s : AppMain.AppState) (t : Hook.HState),
      (AppMain.handleEndSession endSessionThrew s).isSecureConnection = false ∧
      (AppMain.handleEndSession endSessionThrew s).connectionAttempts = 0 ∧
      (Hook.handleEndSession endSessionThrew t).isSecureConnection = false ∧
      (Hook.handleEndSession endSessionThrew t).connectionAttempts = 0 := by
  intro threw s t
  exact ⟨rfl, rfl, rfl, rfl⟩
